import Mathlib

/-!
Shallow embedding of `generate_outfit.py`: a randomized depth-first
backtracking search (`Outfit.__get_valid_outfit`) over four clothing
categories, pruned by a conjunctive policy predicate
(`OutfitPolicy.is_valid`).
-/

namespace AutoOutfit

/-- The `attributes` record carried by every piece in `closet.json`. -/
structure Attributes where
  color : String
  warmth : Int
  comfort : Int
  fancy : Bool
  loose : Bool
deriving DecidableEq, Repr

/-- One wearable item: `{name, filename, attributes}`. -/
structure Piece where
  name : String
  filename : String
  attributes : Attributes
deriving DecidableEq, Repr

/-- The four outfit slots, in the fixed search order of `self.order`. -/
inductive PieceType where
  | top
  | bottom
  | jacket
  | shoe
deriving DecidableEq, Repr

/-- Position of a category in `self.order = ["top", "bottom", "jacket", "shoe"]`. -/
def rank : PieceType → Nat
  | .top => 0
  | .bottom => 1
  | .jacket => 2
  | .shoe => 3

/-- `self.order = ["top", "bottom", "jacket", "shoe"]`. -/
def order : List PieceType := [.top, .bottom, .jacket, .shoe]

/-- The closet catalog: one ordered candidate list per category
(`closet["tops"]`, `closet["bottoms"]`, `closet["jackets"]`, `closet["shoes"]`). -/
structure Closet where
  tops : List Piece
  bottoms : List Piece
  jackets : List Piece
  shoes : List Piece
deriving DecidableEq, Repr

/-- The `piece_type_to_list` mapping built from a closet. -/
def Closet.list (c : Closet) : PieceType → List Piece
  | .top => c.tops
  | .bottom => c.bottoms
  | .jacket => c.jackets
  | .shoe => c.shoes

/-- `self.neutral_colors = ["black", "white", "tan", "gray", "jeanblue"]`. -/
def neutral_colors : List String := ["black", "white", "tan", "gray", "jeanblue"]

/-- The `outfit` dict of the search, and equally the `piece_type_to_piece`
cache of the policy: at most one piece per category, absent = key not set. -/
structure Assignment where
  top : Option Piece
  bottom : Option Piece
  jacket : Option Piece
  shoe : Option Piece
deriving DecidableEq, Repr

/-- Dict lookup `outfit.get(piece_type)` (absent key gives `none`). -/
def Assignment.get (a : Assignment) : PieceType → Option Piece
  | .top => a.top
  | .bottom => a.bottom
  | .jacket => a.jacket
  | .shoe => a.shoe

/-- Dict write `outfit[piece_type] = piece` (overwrites any prior value). -/
def Assignment.set (a : Assignment) (c : PieceType) (p : Piece) : Assignment :=
  match c with
  | .top => { a with top := some p }
  | .bottom => { a with bottom := some p }
  | .jacket => { a with jacket := some p }
  | .shoe => { a with shoe := some p }

/-- Dict delete `del outfit[piece_type]`. -/
def Assignment.erase (a : Assignment) (c : PieceType) : Assignment :=
  match c with
  | .top => { a with top := none }
  | .bottom => { a with bottom := none }
  | .jacket => { a with jacket := none }
  | .shoe => { a with shoe := none }

/-- Dict length `len(outfit)`: number of categories currently assigned. -/
def Assignment.size (a : Assignment) : Nat :=
  (if a.top.isSome then 1 else 0) + (if a.bottom.isSome then 1 else 0) +
    (if a.jacket.isSome then 1 else 0) + (if a.shoe.isSome then 1 else 0)

/-- The empty dict `{}`. -/
def Assignment.empty : Assignment := ⟨none, none, none, none⟩

/-- Python truthiness of an optional int (`None` and `0` are falsy). -/
def truthyInt : Option Int → Bool
  | none => false
  | some n => n != 0

/-- Python truthiness of an optional string (`None` and `""` are falsy). -/
def truthyStr : Option String → Bool
  | none => false
  | some s => s != ""

/-- The state of an `OutfitPolicy` after `__init__`: the four configuration
fields, plus `required_piece_type` when it was resolved (the Python object
only has that attribute when `required_piece` is truthy). -/
structure OutfitPolicy where
  warmth_level : Option Int
  comfort_level : Option Int
  fancy : Bool
  required_piece : Option String
  required_piece_type : Option PieceType
deriving DecidableEq, Repr

/-- `OutfitPolicy.__get_piece_type_from_name`: first category (in
`piece_type_to_list` insertion order top, bottom, jacket, shoe) holding a
piece with the given name; `ArgumentTypeError` when none does. -/
def get_piece_type_from_name (closet : Closet) (piece_name : String) :
    Except String PieceType :=
  match order.find?
      (fun t => decide (0 < ((closet.list t).filter (fun p => p.name == piece_name)).length)) with
  | some t => .ok t
  | none => .error "Required piece name not found. Make sure the name exists in your closet"

/-- `OutfitPolicy.__init__`: stores the configuration and, when
`required_piece` is truthy, resolves it to a category (propagating the
`ArgumentTypeError` when resolution fails). -/
def mkOutfitPolicy (warmth_level comfort_level : Option Int) (fancy : Bool)
    (required_piece : Option String) (closet : Closet) : Except String OutfitPolicy :=
  if truthyStr required_piece then
    match get_piece_type_from_name closet (required_piece.getD "") with
    | .ok t => .ok ⟨warmth_level, comfort_level, fancy, required_piece, some t⟩
    | .error e => .error e
  else
    .ok ⟨warmth_level, comfort_level, fancy, required_piece, none⟩

/-- Contribution of one assigned slot to the `colors` list of
`__is_color_matched`: its color when that color is not neutral. -/
def nnColor : Option Piece → Option String
  | some p => if neutral_colors.contains p.attributes.color then none else some p.attributes.color
  | none => none

/-- `OutfitPolicy.__is_color_matched`: at most one distinct non-neutral
color among the assigned pieces (`len(set(colors)) <= 1`). -/
def is_color_matched (a : Assignment) : Bool :=
  decide (((order.filterMap (fun ty => nnColor (a.get ty))).dedup).length ≤ 1)

/-- `OutfitPolicy.__has_silhouette`: not both an assigned top and an
assigned bottom with `loose = true`. -/
def has_silhouette : Option Piece → Option Piece → Bool
  | some t, some b => !(t.attributes.loose && b.attributes.loose)
  | _, _ => true

/-- `OutfitPolicy.__meets_warmth_level` (called only under a truthy
`warmth_level`): each assigned piece among bottom, jacket has
`warmth == warmth_level`. -/
def meets_warmth_level (wl : Int) (bottom jacket : Option Piece) : Bool :=
  (match bottom with
   | none => true
   | some b => b.attributes.warmth == wl) &&
  (match jacket with
   | none => true
   | some j => j.attributes.warmth == wl)

/-- Per-slot check of `__meets_comfort_level`: an assigned piece must not
have `comfort < comfort_level`. -/
def comfort_ok (cl : Int) : Option Piece → Bool
  | some p => !decide (p.attributes.comfort < cl)
  | none => true

/-- `OutfitPolicy.__meets_comfort_level` (called only under a truthy
`comfort_level`), iterating `piece_type_to_piece` in insertion order. -/
def meets_comfort_level (cl : Int) (a : Assignment) : Bool :=
  order.all (fun ty => comfort_ok cl (a.get ty))

/-- Per-slot check of `__is_fancy`: an assigned piece must be fancy. -/
def fancy_ok : Option Piece → Bool
  | some p => p.attributes.fancy
  | none => true

/-- `OutfitPolicy.__is_fancy`. -/
def is_fancy (a : Assignment) : Bool :=
  order.all (fun ty => fancy_ok (a.get ty))

/-- Per-slot check of `__contains_required_piece_for_piece_type`: reject an
assigned piece exactly when its slot is the resolved required category and
its name differs from the required name. -/
def required_ok (rpt : Option PieceType) (n : String) (ty : PieceType) : Option Piece → Bool
  | some p => !(rpt == some ty && p.name != n)
  | none => true

/-- `OutfitPolicy.__contains_required_piece_for_piece_type` (called only
under a truthy `required_piece`). -/
def contains_required_piece_for_piece_type (rpt : Option PieceType) (n : String)
    (a : Assignment) : Bool :=
  order.all (fun ty => required_ok rpt n ty (a.get ty))

/-- `OutfitPolicy.is_valid` with the mutation of `self.piece_type_to_piece`
made explicit: takes the cache left by the previous call, rebuilds it from
the four arguments, and returns the verdict together with the new cache. -/
def is_valid_s (p : OutfitPolicy) (cache : Assignment)
    (top bottom jacket shoe : Option Piece) : Bool × Assignment :=
  (is_color_matched (Assignment.mk top bottom jacket shoe)
    && has_silhouette top bottom
    && (!truthyInt p.warmth_level || meets_warmth_level (p.warmth_level.getD 0) bottom jacket)
    && (!truthyInt p.comfort_level
        || meets_comfort_level (p.comfort_level.getD 0) (Assignment.mk top bottom jacket shoe))
    && (!p.fancy || is_fancy (Assignment.mk top bottom jacket shoe))
    && (!truthyStr p.required_piece
        || contains_required_piece_for_piece_type p.required_piece_type
             (p.required_piece.getD "") (Assignment.mk top bottom jacket shoe)),
   Assignment.mk top bottom jacket shoe)

/-- `OutfitPolicy.is_valid` as the value it returns (the cache never
influences it; see `is_valid_s`). -/
def is_valid (p : OutfitPolicy) (top bottom jacket shoe : Option Piece) : Bool :=
  (is_valid_s p Assignment.empty top bottom jacket shoe).1

/-- `Outfit.__get_next_piece_type`: `self.order[self.order.index(t) + 1]`;
`none` models the `IndexError` that indexing past the end would raise. -/
def next_piece_type : PieceType → Option PieceType
  | .top => some .bottom
  | .bottom => some .jacket
  | .jacket => some .shoe
  | .shoe => none

/-- Outcome of one run of `Outfit.__get_valid_outfit`: a returned outfit,
the exhaustion `Exception`, or the (unreachable) `IndexError` of stepping
past the last category. -/
inductive SearchResult where
  | found (a : Assignment)
  | exhausted
  | crashed
deriving DecidableEq, Repr

/-- The loop of `Outfit.__get_valid_outfit`, fuel-indexed. The Lean list
head is the Python list tail (`to_explore.pop()` pops the last element;
`extend xs` makes the last element of `xs` the next pop), so a push is
`xs.reverse ++ stack`. `none` means the fuel ran out, never the program. -/
def search_go (p : OutfitPolicy) (lists : PieceType → List Piece) :
    Nat → List (PieceType × Piece) → Assignment → Option SearchResult
  | 0, _, _ => none
  | _ + 1, [], _ => some .exhausted
  | fuel + 1, (pt, piece) :: rest, o =>
    if is_valid p (o.set pt piece).top (o.set pt piece).bottom
        (o.set pt piece).jacket (o.set pt piece).shoe then
      if (o.set pt piece).size = order.length then
        some (.found (o.set pt piece))
      else
        match next_piece_type pt with
        | none => some .crashed
        | some nt =>
          search_go p lists fuel (((lists nt).map (fun q => (nt, q))).reverse ++ rest)
            (o.set pt piece)
    else
      search_go p lists fuel rest ((o.set pt piece).erase pt)

/-- Weight of a stack entry of the given category: 1 for the pop itself
plus the worst-case weight of everything a valid pop can push. -/
def weight (lists : PieceType → List Piece) : PieceType → Nat
  | .shoe => 1
  | .jacket => 1 + (lists .shoe).length
  | .bottom => 1 + (lists .jacket).length * (1 + (lists .shoe).length)
  | .top => 1 + (lists .bottom).length * (1 + (lists .jacket).length * (1 + (lists .shoe).length))

/-- Total weight of a work stack. -/
def potential (lists : PieceType → List Piece) (stack : List (PieceType × Piece)) : Nat :=
  (stack.map (fun it => weight lists it.1)).sum

/-- The initial work stack: every candidate of the first category. -/
def init_stack (lists : PieceType → List Piece) : List (PieceType × Piece) :=
  ((lists .top).map (fun q => (.top, q))).reverse

/-- Fuel sufficient for the whole search (proved below). -/
def search_fuel (lists : PieceType → List Piece) : Nat :=
  potential lists (init_stack lists) + 1

/-- `Outfit.__get_valid_outfit` on the (already randomized) candidate
lists. -/
def get_valid_outfit (p : OutfitPolicy) (lists : PieceType → List Piece) :
    Option SearchResult :=
  search_go p lists (search_fuel lists) (init_stack lists) Assignment.empty

/-- One draw of `random.sample`: the oracle picks an index into the
remaining pool at each step, the chosen element is removed from the pool
(sampling without replacement). -/
def sample_go : Nat → (Nat → Nat) → List Piece → List Piece
  | 0, _, _ => []
  | n + 1, oracle, l =>
    if h : l.length = 0 then
      []
    else
      l.get ⟨oracle 0 % l.length, Nat.mod_lt _ (Nat.pos_of_ne_zero h)⟩ ::
        sample_go n (fun k => oracle (k + 1)) (l.eraseIdx (oracle 0 % l.length))

/-- `random.sample(list, len(list))` with its randomness supplied by an
index oracle. -/
def sample (oracle : Nat → Nat) (l : List Piece) : List Piece :=
  sample_go l.length oracle l

/-- `Outfit.__randomize_piece_lists`: rebind each category to a fresh
sample of its current list; the input lists are not mutated. -/
def randomize_piece_lists (oracles : PieceType → Nat → Nat)
    (lists : PieceType → List Piece) : PieceType → List Piece :=
  fun ty => sample (oracles ty) (lists ty)

/-- Whether a constructor run ended in the `ArgumentTypeError`. -/
def isError {α : Type} : Except String α → Bool
  | .error _ => true
  | .ok _ => false

/-- The set of distinct non-neutral colors among the assigned pieces, as
the spec describes the color-match constraint. -/
def non_neutral_colors (a : Assignment) : Finset String :=
  (order.filterMap (fun ty => nnColor (a.get ty))).toFinset

/-! Concrete catalogs used by closed theorems and witnesses. -/

/-- A piece with the given name and color; both `.jpg` suffixed filename
and the remaining attributes are fixed. -/
def examplePiece (nm col : String) (w cf : Int) (fa lo : Bool) : Piece :=
  ⟨nm, nm ++ ".jpg", ⟨col, w, cf, fa, lo⟩⟩

def piece_top_black : Piece := examplePiece "teeBlack" "black" 2 2 false false

def piece_bottom_blue : Piece := examplePiece "pantsBlue" "blue" 2 2 false false

def piece_bottom_red : Piece := examplePiece "pantsRed" "red" 2 2 false false

def piece_jacket_red : Piece := examplePiece "coatRed" "red" 2 2 false false

def piece_jacket_blue : Piece := examplePiece "coatBlue" "blue" 2 2 false false

def piece_shoe_blue : Piece := examplePiece "shoeBlue" "blue" 2 2 false false

/-- A catalog on which the stale-assignment behaviour of the search shows:
a valid outfit exists, yet the depth-first run below exhausts. -/
def closetStale : Closet :=
  ⟨[piece_top_black], [piece_bottom_blue, piece_bottom_red],
    [piece_jacket_red, piece_jacket_blue], [piece_shoe_blue]⟩

/-- The policy of a run with no command-line options. -/
def polNone : OutfitPolicy := ⟨none, none, false, none, none⟩

def piece_top_plain : Piece := examplePiece "teePlain" "black" 2 2 false false

def piece_bottom_plain : Piece := examplePiece "pantsPlain" "black" 2 2 false false

def piece_jacket_plain : Piece := examplePiece "coatPlain" "black" 2 2 false false

def piece_shoe_plain : Piece := examplePiece "shoePlain" "black" 2 2 false false

/-- A one-piece-per-category all-neutral catalog. -/
def closetPlain : Closet :=
  ⟨[piece_top_plain], [piece_bottom_plain], [piece_jacket_plain], [piece_shoe_plain]⟩

/-- The policy of a run with only `--warmth 2`. -/
def polWarm2 : OutfitPolicy := ⟨some 2, none, false, none, none⟩

/-- A catalog carrying the name `"hat"` in both the bottoms and the
jackets category. -/
def closetDup : Closet :=
  ⟨[piece_top_plain], [examplePiece "hat" "black" 2 2 false false],
    [examplePiece "hat" "gray" 2 2 false false], [piece_shoe_plain]⟩

/-! Claim theorems. -/

/-- C1: the code, not the claim, is at fault here. On `closetStale`, with
no constraints active, the search raises the exhaustion error although the
complete outfit (black top, blue bottom, blue jacket, blue shoe), drawn one
piece per category from the catalog, satisfies the policy: backtracking
leaves a stale jacket assignment that wrongly rejects the second bottom. -/
theorem C1_exhaustion_despite_satisfiable_outfit :
    mkOutfitPolicy none none false none closetStale = .ok polNone ∧
    get_valid_outfit polNone closetStale.list = some SearchResult.exhausted ∧
    piece_top_black ∈ closetStale.tops ∧
    piece_bottom_blue ∈ closetStale.bottoms ∧
    piece_jacket_blue ∈ closetStale.jackets ∧
    piece_shoe_blue ∈ closetStale.shoes ∧
    is_valid polNone (some piece_top_black) (some piece_bottom_blue)
      (some piece_jacket_blue) (some piece_shoe_blue) = true :=
  ⟨rfl, by decide, by decide, by decide, by decide, by decide, by decide⟩

/-- C3: the color-match check accepts an assignment exactly when the set of
distinct non-neutral colors among its assigned pieces has size at most one;
neutral-colored pieces and absent categories never count. -/
theorem C3_color_match_iff_at_most_one_color (a : Assignment) :
    is_color_matched a = true ↔ (non_neutral_colors a).card ≤ 1 := by
  simp [is_color_matched, non_neutral_colors, List.card_toFinset]

/-- C5: with the required piece resolved to category `C`, the required-piece
check rejects an assignment exactly when category `C` holds a piece whose
name differs from the required name; other categories and an absent `C`
never cause rejection. -/
theorem C5_required_check_rejects_iff (C : PieceType) (n : String) (a : Assignment) :
    contains_required_piece_for_piece_type (some C) n a = false ↔
      ∃ pc, a.get C = some pc ∧ pc.name ≠ n := by
  obtain ⟨t, b, j, s⟩ := a
  cases C <;> cases t <;> cases b <;> cases j <;> cases s <;>
    simp [contains_required_piece_for_piece_type, order, required_ok, Assignment.get]

/-- Any outfit the search loop returns passed the completeness test and the
policy check at the moment of return. -/
lemma search_go_found (p : OutfitPolicy) (lists : PieceType → List Piece) :
    ∀ (fuel : Nat) (stack : List (PieceType × Piece)) (o a : Assignment),
      search_go p lists fuel stack o = some (SearchResult.found a) →
      is_valid p a.top a.bottom a.jacket a.shoe = true ∧ a.size = 4 := by
  intro fuel
  induction fuel with
  | zero => intro stack o a h; simp [search_go] at h
  | succ m ih =>
    intro stack o a h
    match stack with
    | [] => simp [search_go] at h
    | (pt, piece) :: rest =>
      rw [search_go] at h
      by_cases hv : is_valid p (o.set pt piece).top (o.set pt piece).bottom
          (o.set pt piece).jacket (o.set pt piece).shoe = true
      · rw [if_pos hv] at h
        by_cases hs : (o.set pt piece).size = order.length
        · rw [if_pos hs] at h
          have ha : o.set pt piece = a := by simpa using h
          subst ha
          exact ⟨hv, by simpa [order] using hs⟩
        · rw [if_neg hs] at h
          cases hn : next_piece_type pt with
          | none => rw [hn] at h; simp at h
          | some nt => rw [hn] at h; exact ih _ _ _ h
      · rw [if_neg hv] at h
        exact ih _ _ _ h

/-- C2: when the search returns (rather than raising), the returned outfit
assigns a piece to each of the four categories and satisfies `is_valid`
under the active configuration. -/
theorem C2_returned_outfit_complete_and_valid (p : OutfitPolicy)
    (lists : PieceType → List Piece) (a : Assignment)
    (h : get_valid_outfit p lists = some (SearchResult.found a)) :
    a.top.isSome = true ∧ a.bottom.isSome = true ∧ a.jacket.isSome = true ∧
      a.shoe.isSome = true ∧ is_valid p a.top a.bottom a.jacket a.shoe = true := by
  obtain ⟨hv, hs⟩ := search_go_found p lists _ _ _ _ h
  obtain ⟨t, b, j, s⟩ := a
  cases t <;> cases b <;> cases j <;> cases s <;> simp_all [Assignment.size]

/-- Witness for C2 on the all-neutral one-piece-per-category catalog. -/
theorem C2_witness :
    (some piece_top_plain).isSome = true ∧ (some piece_bottom_plain).isSome = true ∧
      (some piece_jacket_plain).isSome = true ∧ (some piece_shoe_plain).isSome = true ∧
      is_valid polNone (some piece_top_plain) (some piece_bottom_plain)
        (some piece_jacket_plain) (some piece_shoe_plain) = true :=
  C2_returned_outfit_complete_and_valid polNone closetPlain.list
    ⟨some piece_top_plain, some piece_bottom_plain, some piece_jacket_plain,
      some piece_shoe_plain⟩ (by decide)

/-- Putting the element at an index in front of the remainder of the list
permutes the list. -/
lemma cons_get_eraseIdx_perm {α : Type} :
    ∀ (l : List α) (j : Nat) (h : j < l.length),
      List.Perm (l.get ⟨j, h⟩ :: l.eraseIdx j) l := by
  intro l
  induction l with
  | nil => intro j h; simp at h
  | cons x t iht =>
    intro j h
    cases j with
    | zero => exact List.Perm.refl _
    | succ k =>
      have hk : k < t.length := by simpa using h
      have h1 : List.Perm (t.get ⟨k, hk⟩ :: x :: t.eraseIdx k)
          (x :: t.get ⟨k, hk⟩ :: t.eraseIdx k) := List.Perm.swap _ _ _
      have h2 : List.Perm (x :: t.get ⟨k, hk⟩ :: t.eraseIdx k) (x :: t) :=
        List.Perm.cons _ (iht k hk)
      exact h1.trans h2

/-- A sample of the whole pool is a permutation of the pool, whatever the
index oracle does. -/
lemma sample_go_perm : ∀ (n : Nat) (oracle : Nat → Nat) (l : List Piece),
    l.length ≤ n → List.Perm (sample_go n oracle l) l := by
  intro n
  induction n with
  | zero =>
    intro o l h
    have hl : l = [] := List.eq_nil_of_length_eq_zero (Nat.le_zero.mp h)
    subst hl
    exact List.Perm.refl _
  | succ m ih =>
    intro o l h
    rw [sample_go]
    by_cases hl : l.length = 0
    · rw [dif_pos hl]
      have hn : l = [] := List.eq_nil_of_length_eq_zero hl
      subst hn
      exact List.Perm.refl _
    · rw [dif_neg hl]
      have hj : o 0 % l.length < l.length := Nat.mod_lt _ (Nat.pos_of_ne_zero hl)
      have hlen : (l.eraseIdx (o 0 % l.length)).length ≤ m := by
        rw [List.length_eraseIdx]
        simp [hj]
        omega
      exact (List.Perm.cons _ (ih _ _ hlen)).trans (cons_get_eraseIdx_perm l _ hj)

/-- C8: after the per-run randomization each category's candidate list is a
permutation of that category's original list — every piece appears exactly
once — and the original lists are read, not modified. -/
theorem C8_randomized_lists_are_permutations (oracles : PieceType → Nat → Nat)
    (lists : PieceType → List Piece) (ty : PieceType) :
    List.Perm (randomize_piece_lists oracles lists ty) (lists ty) :=
  sample_go_perm _ _ _ (Nat.le_refl _)

/-- Two optional pieces that agree on everything except possibly their
warmth attribute. -/
def eqExceptWarmth : Option Piece → Option Piece → Prop
  | none, none => True
  | some p, some q =>
    p.name = q.name ∧ p.filename = q.filename ∧
      p.attributes.color = q.attributes.color ∧
      p.attributes.comfort = q.attributes.comfort ∧
      p.attributes.fancy = q.attributes.fancy ∧
      p.attributes.loose = q.attributes.loose
  | _, _ => False

lemma eqExceptWarmth_refl (o : Option Piece) : eqExceptWarmth o o := by
  cases o <;> simp [eqExceptWarmth]

lemma nnColor_congr {o o2 : Option Piece} (h : eqExceptWarmth o o2) :
    nnColor o = nnColor o2 := by
  match o, o2 with
  | none, none => rfl
  | none, some q => exact absurd h (by simp [eqExceptWarmth])
  | some p, none => exact absurd h (by simp [eqExceptWarmth])
  | some p, some q =>
    simp only [eqExceptWarmth] at h
    obtain ⟨h1, h2, h3, h4, h5, h6⟩ := h
    simp [nnColor, h3]

lemma comfort_ok_congr (cl : Int) {o o2 : Option Piece} (h : eqExceptWarmth o o2) :
    comfort_ok cl o = comfort_ok cl o2 := by
  match o, o2 with
  | none, none => rfl
  | none, some q => exact absurd h (by simp [eqExceptWarmth])
  | some p, none => exact absurd h (by simp [eqExceptWarmth])
  | some p, some q =>
    simp only [eqExceptWarmth] at h
    obtain ⟨h1, h2, h3, h4, h5, h6⟩ := h
    simp [comfort_ok, h4]

lemma fancy_ok_congr {o o2 : Option Piece} (h : eqExceptWarmth o o2) :
    fancy_ok o = fancy_ok o2 := by
  match o, o2 with
  | none, none => rfl
  | none, some q => exact absurd h (by simp [eqExceptWarmth])
  | some p, none => exact absurd h (by simp [eqExceptWarmth])
  | some p, some q =>
    simp only [eqExceptWarmth] at h
    obtain ⟨h1, h2, h3, h4, h5, h6⟩ := h
    simp [fancy_ok, h5]

lemma required_ok_congr (rpt : Option PieceType) (n : String) (ty : PieceType)
    {o o2 : Option Piece} (h : eqExceptWarmth o o2) :
    required_ok rpt n ty o = required_ok rpt n ty o2 := by
  match o, o2 with
  | none, none => rfl
  | none, some q => exact absurd h (by simp [eqExceptWarmth])
  | some p, none => exact absurd h (by simp [eqExceptWarmth])
  | some p, some q =>
    simp only [eqExceptWarmth] at h
    obtain ⟨h1, h2, h3, h4, h5, h6⟩ := h
    simp [required_ok, h1]

lemma has_silhouette_congr {t t2 b b2 : Option Piece} (ht : eqExceptWarmth t t2)
    (hb : eqExceptWarmth b b2) : has_silhouette t b = has_silhouette t2 b2 := by
  match t, t2 with
  | none, none =>
    match b, b2 with
    | none, none => rfl
    | none, some q => exact absurd hb (by simp [eqExceptWarmth])
    | some p, none => exact absurd hb (by simp [eqExceptWarmth])
    | some p, some q => rfl
  | none, some q => exact absurd ht (by simp [eqExceptWarmth])
  | some p, none => exact absurd ht (by simp [eqExceptWarmth])
  | some p, some q =>
    match b, b2 with
    | none, none => rfl
    | none, some q2 => exact absurd hb (by simp [eqExceptWarmth])
    | some p2, none => exact absurd hb (by simp [eqExceptWarmth])
    | some p2, some q2 =>
      simp only [eqExceptWarmth] at ht hb
      obtain ⟨-, -, -, -, -, hl⟩ := ht
      obtain ⟨-, -, -, -, -, hl2⟩ := hb
      simp [has_silhouette, hl, hl2]

lemma is_color_matched_congr {t t2 b b2 j j2 s s2 : Option Piece}
    (ht : eqExceptWarmth t t2) (hb : eqExceptWarmth b b2) (hj : eqExceptWarmth j j2)
    (hs : eqExceptWarmth s s2) :
    is_color_matched (Assignment.mk t b j s) = is_color_matched (Assignment.mk t2 b2 j2 s2) := by
  simp only [is_color_matched, order, List.filterMap_cons, List.filterMap_nil,
    Assignment.get, nnColor_congr ht, nnColor_congr hb, nnColor_congr hj, nnColor_congr hs]

lemma meets_comfort_congr (cl : Int) {t t2 b b2 j j2 s s2 : Option Piece}
    (ht : eqExceptWarmth t t2) (hb : eqExceptWarmth b b2) (hj : eqExceptWarmth j j2)
    (hs : eqExceptWarmth s s2) :
    meets_comfort_level cl (Assignment.mk t b j s) =
      meets_comfort_level cl (Assignment.mk t2 b2 j2 s2) := by
  simp only [meets_comfort_level, order, List.all_cons, List.all_nil, Assignment.get,
    comfort_ok_congr cl ht, comfort_ok_congr cl hb, comfort_ok_congr cl hj,
    comfort_ok_congr cl hs]

lemma is_fancy_congr {t t2 b b2 j j2 s s2 : Option Piece}
    (ht : eqExceptWarmth t t2) (hb : eqExceptWarmth b b2) (hj : eqExceptWarmth j j2)
    (hs : eqExceptWarmth s s2) :
    is_fancy (Assignment.mk t b j s) = is_fancy (Assignment.mk t2 b2 j2 s2) := by
  simp only [is_fancy, order, List.all_cons, List.all_nil, Assignment.get,
    fancy_ok_congr ht, fancy_ok_congr hb, fancy_ok_congr hj, fancy_ok_congr hs]

lemma contains_required_congr (rpt : Option PieceType) (n : String)
    {t t2 b b2 j j2 s s2 : Option Piece}
    (ht : eqExceptWarmth t t2) (hb : eqExceptWarmth b b2) (hj : eqExceptWarmth j j2)
    (hs : eqExceptWarmth s s2) :
    contains_required_piece_for_piece_type rpt n (Assignment.mk t b j s) =
      contains_required_piece_for_piece_type rpt n (Assignment.mk t2 b2 j2 s2) := by
  simp only [contains_required_piece_for_piece_type, order, List.all_cons, List.all_nil,
    Assignment.get, required_ok_congr rpt n PieceType.top ht,
    required_ok_congr rpt n PieceType.bottom hb, required_ok_congr rpt n PieceType.jacket hj,
    required_ok_congr rpt n PieceType.shoe hs]

/-- Replacing pieces by warmth-modified copies can only change the verdict
of `is_valid` through the warmth conjunct. -/
lemma is_valid_congr (p : OutfitPolicy) {t t2 b b2 j j2 s s2 : Option Piece}
    (ht : eqExceptWarmth t t2) (hb : eqExceptWarmth b b2) (hj : eqExceptWarmth j j2)
    (hs : eqExceptWarmth s s2)
    (hw : (!truthyInt p.warmth_level || meets_warmth_level (p.warmth_level.getD 0) b j) =
      (!truthyInt p.warmth_level || meets_warmth_level (p.warmth_level.getD 0) b2 j2)) :
    is_valid p t b j s = is_valid p t2 b2 j2 s2 := by
  unfold is_valid is_valid_s
  dsimp only
  rw [is_color_matched_congr ht hb hj hs, has_silhouette_congr ht hb,
    meets_comfort_congr (p.comfort_level.getD 0) ht hb hj hs, is_fancy_congr ht hb hj hs,
    contains_required_congr p.required_piece_type (p.required_piece.getD "") ht hb hj hs, hw]

/-- C4: under a legal configuration (warmth level unset or in 1..3), an
unset warmth level imposes no warmth restriction at all — the verdict of
`is_valid` is invariant under arbitrary changes to warmth attributes —
while a set level `w` forces every assigned bottom and jacket to have
warmth exactly `w`, never inspects the warmth of tops and shoes, and is
trivially satisfied when bottom and jacket are absent. -/
theorem C4_warmth_constraint (p : OutfitPolicy)
    (h : p.warmth_level = none ∨ p.warmth_level = some 1 ∨ p.warmth_level = some 2 ∨
      p.warmth_level = some 3) :
    (p.warmth_level = none →
      ∀ t b j s t2 b2 j2 s2 : Option Piece, eqExceptWarmth t t2 → eqExceptWarmth b b2 →
        eqExceptWarmth j j2 → eqExceptWarmth s s2 →
        is_valid p t b j s = is_valid p t2 b2 j2 s2) ∧
    (∀ w : Int, p.warmth_level = some w →
      (∀ t b j s : Option Piece, is_valid p t b j s = true →
        (∀ bp : Piece, b = some bp → bp.attributes.warmth = w) ∧
        (∀ jp : Piece, j = some jp → jp.attributes.warmth = w)) ∧
      (∀ t b j s t2 s2 : Option Piece, eqExceptWarmth t t2 → eqExceptWarmth s s2 →
        is_valid p t b j s = is_valid p t2 b j s2) ∧
      meets_warmth_level w none none = true) := by
  constructor
  · intro hn t b j s t2 b2 j2 s2 ht hb hj hs
    exact is_valid_congr p ht hb hj hs (by simp [hn, truthyInt])
  · intro w hw
    have htr : truthyInt p.warmth_level = true := by
      rcases h with h | h | h | h <;> rw [h] at hw ⊢ <;> simp_all [truthyInt] <;> omega
    refine ⟨?_, ?_, rfl⟩
    · intro t b j s hv
      unfold is_valid is_valid_s at hv
      dsimp only at hv
      simp only [Bool.and_eq_true] at hv
      obtain ⟨⟨⟨⟨⟨h1, h2⟩, h3⟩, h4⟩, h5⟩, h6⟩ := hv
      rw [htr, hw] at h3
      simp only [Bool.not_true, Bool.false_or, Option.getD_some] at h3
      unfold meets_warmth_level at h3
      simp only [Bool.and_eq_true] at h3
      obtain ⟨h3b, h3j⟩ := h3
      constructor
      · intro bp hbp
        rw [hbp] at h3b
        simpa using h3b
      · intro jp hjp
        rw [hjp] at h3j
        simpa using h3j
    · intro t b j s t2 s2 ht hs2
      exact is_valid_congr p ht (eqExceptWarmth_refl b) (eqExceptWarmth_refl j) hs2 rfl

/-- Witness for C4 at the concrete policy with warmth level 2: the warmth
of the bottom of a validated outfit equals 2. -/
theorem C4_witness : piece_bottom_plain.attributes.warmth = 2 :=
  (((C4_warmth_constraint polWarm2 (Or.inr (Or.inr (Or.inl rfl)))).2 2 rfl).1
    (some piece_top_plain) (some piece_bottom_plain) none none (by decide)).1
    piece_bottom_plain rfl

/-- The positivity test on a filtered candidate list, as the resolution
uses it, holds exactly when some piece of the list carries the name. -/
lemma exists_name_iff (l : List Piece) (n : String) :
    (decide (0 < (l.filter (fun p => p.name == n)).length) = true) ↔
      ∃ pc ∈ l, pc.name = n := by
  simp [List.length_pos_iff_exists_mem, List.mem_filter]

/-- Constructing a policy with a truthy required name errors exactly when
the category scan finds nothing. -/
lemma mk_error_iff_find_none (w c : Option Int) (f : Bool) (n : String) (closet : Closet)
    (h : truthyStr (some n) = true) :
    isError (mkOutfitPolicy w c f (some n) closet) = true ↔
      order.find?
        (fun t => decide (0 < ((closet.list t).filter (fun p => p.name == n)).length)) =
        none := by
  simp only [mkOutfitPolicy, h, if_true, Option.getD_some, get_piece_type_from_name]
  cases hf : order.find?
      (fun t => decide (0 < ((closet.list t).filter (fun p => p.name == n)).length)) <;>
    simp [isError]

/-- C6 (amended): for a nonempty required piece name, policy construction
raises the invalid-argument error exactly when no piece of any category
carries that name; when some piece does, construction succeeds. -/
theorem C6_config_error_iff_required_name_absent (w c : Option Int) (f : Bool) (n : String)
    (closet : Closet) (h : n ≠ "") :
    isError (mkOutfitPolicy w c f (some n) closet) = true ↔
      ∀ ty : PieceType, ∀ pc ∈ closet.list ty, pc.name ≠ n := by
  rw [mk_error_iff_find_none w c f n closet (by simp [truthyStr, h])]
  rw [List.find?_eq_none]
  constructor
  · intro hall ty pc hpc hname
    have hmem : ty ∈ order := by cases ty <;> simp [order]
    exact hall ty hmem ((exists_name_iff (closet.list ty) n).mpr ⟨pc, hpc, hname⟩)
  · intro hall ty hmem hex
    obtain ⟨pc, hpc, hname⟩ := (exists_name_iff (closet.list ty) n).mp hex
    exact hall ty pc hpc hname

/-- C6 counterexample: with the empty string supplied as the required piece
name — a name no piece of `closetPlain` carries — construction does not
raise: Python truthiness treats `""` as unset. -/
theorem C6_counterexample_empty_name_not_rejected :
    isError (mkOutfitPolicy none none false (some "") closetPlain) = false ∧
      (order.all (fun ty => (closetPlain.list ty).all (fun pc => pc.name != ""))) = true :=
  ⟨rfl, by decide⟩

/-- Witness for C6: the name `"fedora"` appears nowhere in `closetPlain`,
so construction errors. -/
theorem C6_witness :
    isError (mkOutfitPolicy none none false (some "fedora") closetPlain) = true := by
  refine (C6_config_error_iff_required_name_absent none none false "fedora" closetPlain
    (by decide)).mpr ?_
  intro ty
  cases ty <;> decide

/-- The spec's description of required-name resolution: the first category
in the order top, bottom, jacket, shoe that holds a piece with the name. -/
def resolutionSpec (closet : Closet) (n : String) : PieceType → Prop
  | .top => ∃ pc ∈ closet.tops, pc.name = n
  | .bottom => (¬∃ pc ∈ closet.tops, pc.name = n) ∧ ∃ pc ∈ closet.bottoms, pc.name = n
  | .jacket =>
    (¬∃ pc ∈ closet.tops, pc.name = n) ∧ (¬∃ pc ∈ closet.bottoms, pc.name = n) ∧
      ∃ pc ∈ closet.jackets, pc.name = n
  | .shoe =>
    (¬∃ pc ∈ closet.tops, pc.name = n) ∧ (¬∃ pc ∈ closet.bottoms, pc.name = n) ∧
      (¬∃ pc ∈ closet.jackets, pc.name = n) ∧ ∃ pc ∈ closet.shoes, pc.name = n

lemma pieceType_beq (a b : PieceType) : (a == b) = decide (a = b) := rfl

/-- Mismatch of the scan test on one category's list mirrors the absence of
the name there. -/
lemma name_scan_false {l : List Piece} {n : String} (h : ¬∃ pc ∈ l, pc.name = n) :
    (decide (0 < (l.filter (fun p => p.name == n)).length)) = false := by
  cases hb : (decide (0 < (l.filter (fun p => p.name == n)).length)) with
  | false => rfl
  | true => exact absurd ((exists_name_iff l n).mp hb) h

/-- The required-piece check only ever looks at the one resolved slot. -/
lemma contains_required_eq_slot (C : PieceType) (n : String) (a : Assignment) :
    contains_required_piece_for_piece_type (some C) n a = required_ok (some C) n C (a.get C) := by
  obtain ⟨t, b, j, s⟩ := a
  cases C <;> cases t <;> cases b <;> cases j <;> cases s <;>
    simp [contains_required_piece_for_piece_type, order, required_ok, Assignment.get,
      pieceType_beq]

/-- C10: a required name occurring in several categories resolves to the
first matching category in the fixed order top, bottom, jacket, shoe, and
the required-piece check then depends on that category's slot alone. -/
theorem C10_required_name_resolves_to_first_category (closet : Closet) (n : String)
    (C : PieceType) :
    (get_piece_type_from_name closet n = .ok C ↔ resolutionSpec closet n C) ∧
    (get_piece_type_from_name closet n = .ok C →
      ∀ a a2 : Assignment, a.get C = a2.get C →
        contains_required_piece_for_piece_type (some C) n a =
          contains_required_piece_for_piece_type (some C) n a2) := by
  have horder : order = PieceType.top :: PieceType.bottom :: PieceType.jacket ::
      PieceType.shoe :: [] := rfl
  refine ⟨?_, ?_⟩
  · unfold get_piece_type_from_name
    rw [horder]
    by_cases m1 : ∃ pc ∈ closet.tops, pc.name = n
    · have f1 : (decide (0 < ((closet.list PieceType.top).filter
          (fun p => p.name == n)).length)) = true := (exists_name_iff _ n).mpr m1
      simp only [List.find?, f1]
      cases C <;> simp [resolutionSpec, m1]
    · have f1 : (decide (0 < ((closet.list PieceType.top).filter
          (fun p => p.name == n)).length)) = false := name_scan_false m1
      by_cases m2 : ∃ pc ∈ closet.bottoms, pc.name = n
      · have f2 : (decide (0 < ((closet.list PieceType.bottom).filter
            (fun p => p.name == n)).length)) = true := (exists_name_iff _ n).mpr m2
        simp only [List.find?, f1, f2]
        cases C <;> simp [resolutionSpec, m1, m2]
      · have f2 : (decide (0 < ((closet.list PieceType.bottom).filter
            (fun p => p.name == n)).length)) = false := name_scan_false m2
        by_cases m3 : ∃ pc ∈ closet.jackets, pc.name = n
        · have f3 : (decide (0 < ((closet.list PieceType.jacket).filter
              (fun p => p.name == n)).length)) = true := (exists_name_iff _ n).mpr m3
          simp only [List.find?, f1, f2, f3]
          cases C <;> simp [resolutionSpec, m1, m2, m3]
        · have f3 : (decide (0 < ((closet.list PieceType.jacket).filter
              (fun p => p.name == n)).length)) = false := name_scan_false m3
          by_cases m4 : ∃ pc ∈ closet.shoes, pc.name = n
          · have f4 : (decide (0 < ((closet.list PieceType.shoe).filter
                (fun p => p.name == n)).length)) = true := (exists_name_iff _ n).mpr m4
            simp only [List.find?, f1, f2, f3, f4]
            cases C <;> simp [resolutionSpec, m1, m2, m3, m4]
          · have f4 : (decide (0 < ((closet.list PieceType.shoe).filter
                (fun p => p.name == n)).length)) = false := name_scan_false m4
            simp only [List.find?, f1, f2, f3, f4]
            cases C <;> simp [resolutionSpec, m1, m2, m3, m4]
  · intro _ a a2 hCa
    rw [contains_required_eq_slot, contains_required_eq_slot, hCa]

/-- Witness for C10: `"hat"` names a bottom and a jacket of `closetDup`;
resolution picks the bottoms category. -/
theorem C10_witness : get_piece_type_from_name closetDup "hat" = .ok PieceType.bottom :=
  (C10_required_name_resolves_to_first_category closetDup "hat" PieceType.bottom).1.mpr
    ⟨by decide, by decide⟩

lemma rank_injective {a b : PieceType} (h : rank a = rank b) : a = b := by
  cases a <;> cases b <;> simp_all [rank]

lemma rank_of_next {c nt : PieceType} (h : next_piece_type c = some nt) :
    rank nt = rank c + 1 := by
  cases c <;> simp [next_piece_type] at h <;> subst h <;> rfl

lemma weight_next (lists : PieceType → List Piece) {c nt : PieceType}
    (h : next_piece_type c = some nt) :
    weight lists c = 1 + (lists nt).length * weight lists nt := by
  cases c <;> simp [next_piece_type] at h <;> subst h <;> simp [weight]

lemma weight_pos (lists : PieceType → List Piece) (c : PieceType) : 0 < weight lists c := by
  cases c <;> dsimp [weight] <;> omega

lemma potential_cons (lists : PieceType → List Piece) (pt : PieceType) (piece : Piece)
    (rest : List (PieceType × Piece)) :
    potential lists ((pt, piece) :: rest) = weight lists pt + potential lists rest := by
  simp [potential]

lemma sum_weight_tag (lists : PieceType → List Piece) (nt : PieceType) :
    ∀ l : List Piece,
      ((l.map (fun q => ((nt : PieceType), q))).map (fun it => weight lists it.1)).sum =
        l.length * weight lists nt := by
  intro l
  induction l with
  | nil => simp
  | cons x t ih =>
    simp only [List.map_cons, List.sum_cons, List.length_cons, ih]
    rw [Nat.succ_mul, Nat.add_comm]

lemma potential_push (lists : PieceType → List Piece) (nt : PieceType)
    (rest : List (PieceType × Piece)) :
    potential lists (((lists nt).map (fun q => (nt, q))).reverse ++ rest) =
      (lists nt).length * weight lists nt + potential lists rest := by
  unfold potential
  rw [List.map_append, List.sum_append, List.map_reverse, List.sum_reverse, sum_weight_tag]

/-- The search loop always runs out of stack before it runs out of fuel
when the fuel exceeds the stack's total weight. -/
lemma search_go_total (p : OutfitPolicy) (lists : PieceType → List Piece) :
    ∀ (fuel : Nat) (stack : List (PieceType × Piece)) (o : Assignment),
      potential lists stack < fuel → search_go p lists fuel stack o ≠ none := by
  intro fuel
  induction fuel with
  | zero => intro stack o h; exact absurd h (Nat.not_lt_zero _)
  | succ m ih =>
    intro stack o h
    match stack with
    | [] => simp [search_go]
    | (pt, piece) :: rest =>
      rw [search_go]
      by_cases hv : is_valid p (o.set pt piece).top (o.set pt piece).bottom
          (o.set pt piece).jacket (o.set pt piece).shoe = true
      · rw [if_pos hv]
        by_cases hsize : (o.set pt piece).size = order.length
        · rw [if_pos hsize]; simp
        · rw [if_neg hsize]
          cases hn : next_piece_type pt with
          | none => simp
          | some nt =>
            show search_go p lists m (((lists nt).map (fun q => (nt, q))).reverse ++ rest)
              (o.set pt piece) ≠ none
            apply ih
            rw [potential_push]
            rw [potential_cons, weight_next lists hn] at h
            generalize hK : (lists nt).length * weight lists nt = K at h ⊢
            omega
      · rw [if_neg hv]
        apply ih
        have hw := weight_pos lists pt
        rw [potential_cons] at h
        omega

def stackOK (stack : List (PieceType × Piece)) : Prop :=
  stack.Pairwise (fun x y => rank y.1 ≤ rank x.1)

def outfitOK (o : Assignment) (stack : List (PieceType × Piece)) : Prop :=
  ∀ it ∈ stack, ∀ c : PieceType, rank c < rank it.1 → (o.get c).isSome = true

lemma get_set_self (o : Assignment) (c : PieceType) (p : Piece) :
    (o.set c p).get c = some p := by
  cases c <;> rfl

lemma get_set_ne (o : Assignment) (c : PieceType) (p : Piece) (c2 : PieceType) (h : c2 ≠ c) :
    (o.set c p).get c2 = o.get c2 := by
  cases c <;> cases c2 <;> simp_all [Assignment.set, Assignment.get]

lemma isSome_get_set (o : Assignment) (c : PieceType) (p : Piece) (c2 : PieceType)
    (h : (o.get c2).isSome = true) : ((o.set c p).get c2).isSome = true := by
  by_cases hc : c2 = c
  · subst hc
    rw [get_set_self]
    rfl
  · rw [get_set_ne o c p c2 hc]
    exact h

lemma get_erase_set (o : Assignment) (c : PieceType) (p : Piece) (c2 : PieceType)
    (h : c2 ≠ c) : ((o.set c p).erase c).get c2 = o.get c2 := by
  cases c <;> cases c2 <;> simp_all [Assignment.set, Assignment.erase, Assignment.get]

lemma size_of_all_some (o : Assignment) (h1 : o.top.isSome = true) (h2 : o.bottom.isSome = true)
    (h3 : o.jacket.isSome = true) (h4 : o.shoe.isSome = true) : o.size = 4 := by
  simp [Assignment.size, h1, h2, h3, h4]

/-- Under the stack-shape invariants the `IndexError` branch of the loop is
unreachable: a popped shoe always completes the outfit. -/
lemma search_go_no_crash (p : OutfitPolicy) (lists : PieceType → List Piece) :
    ∀ (fuel : Nat) (stack : List (PieceType × Piece)) (o : Assignment),
      stackOK stack → outfitOK o stack →
      search_go p lists fuel stack o ≠ some SearchResult.crashed := by
  intro fuel
  induction fuel with
  | zero => intro stack o _ _; simp [search_go]
  | succ m ih =>
    intro stack o hA hB
    match stack with
    | [] => simp [search_go]
    | (pt, piece) :: rest =>
      rw [search_go]
      by_cases hv : is_valid p (o.set pt piece).top (o.set pt piece).bottom
          (o.set pt piece).jacket (o.set pt piece).shoe = true
      · rw [if_pos hv]
        by_cases hsize : (o.set pt piece).size = order.length
        · rw [if_pos hsize]; simp
        · rw [if_neg hsize]
          cases hn : next_piece_type pt with
          | none =>
            exfalso
            have hpt : pt = PieceType.shoe := by
              cases pt <;> first | rfl | simp [next_piece_type] at hn
            subst hpt
            have hhead : ((PieceType.shoe, piece) : PieceType × Piece) ∈
                (PieceType.shoe, piece) :: rest := List.mem_cons_self _ _
            have hT : (o.get PieceType.top).isSome = true :=
              hB _ hhead PieceType.top (by simp [rank])
            have hBo : (o.get PieceType.bottom).isSome = true :=
              hB _ hhead PieceType.bottom (by simp [rank])
            have hJ : (o.get PieceType.jacket).isSome = true :=
              hB _ hhead PieceType.jacket (by simp [rank])
            exact hsize (size_of_all_some _ hT hBo hJ rfl)
          | some nt =>
            show search_go p lists m (((lists nt).map (fun q => (nt, q))).reverse ++ rest)
              (o.set pt piece) ≠ some SearchResult.crashed
            have hr : rank nt = rank pt + 1 := rank_of_next hn
            apply ih
            · rw [stackOK, List.pairwise_append]
              refine ⟨?_, (List.pairwise_cons.mp hA).2, ?_⟩
              · apply List.pairwise_of_forall_mem_list
                intro x hx y hy
                rcases List.mem_map.mp (List.mem_reverse.mp hx) with ⟨qx, -, rfl⟩
                rcases List.mem_map.mp (List.mem_reverse.mp hy) with ⟨qy, -, rfl⟩
                exact le_refl _
              · intro x hx y hy
                rcases List.mem_map.mp (List.mem_reverse.mp hx) with ⟨qx, -, rfl⟩
                have hy2 : rank y.1 ≤ rank pt := (List.pairwise_cons.mp hA).1 y hy
                dsimp
                omega
            · intro it hit c hc
              rcases List.mem_append.mp hit with hnew | hold
              · rcases List.mem_map.mp (List.mem_reverse.mp hnew) with ⟨q, -, rfl⟩
                dsimp at hc
                rw [hr] at hc
                rcases Nat.lt_succ_iff_lt_or_eq.mp hc with hlt | heq
                · exact isSome_get_set o pt piece c (hB _ (List.mem_cons_self _ _) c hlt)
                · have hcc : c = pt := rank_injective heq
                  subst hcc
                  rw [get_set_self]
                  rfl
              · exact isSome_get_set o pt piece c (hB it (List.mem_cons_of_mem _ hold) c hc)
      · rw [if_neg hv]
        apply ih
        · exact (List.pairwise_cons.mp hA).2
        · intro it hit c hc
          have hle : rank it.1 ≤ rank pt := (List.pairwise_cons.mp hA).1 it hit
          have hne : c ≠ pt := by
            intro hcc
            subst hcc
            omega
          rw [get_erase_set o pt piece c hne]
          exact hB it (List.mem_cons_of_mem _ hit) c hc

lemma stackOK_init (lists : PieceType → List Piece) : stackOK (init_stack lists) := by
  apply List.pairwise_of_forall_mem_list
  intro x hx y hy
  rcases List.mem_map.mp (List.mem_reverse.mp hx) with ⟨qx, -, rfl⟩
  rcases List.mem_map.mp (List.mem_reverse.mp hy) with ⟨qy, -, rfl⟩
  exact le_refl _

lemma outfitOK_init (lists : PieceType → List Piece) :
    outfitOK Assignment.empty (init_stack lists) := by
  intro it hit c hc
  rcases List.mem_map.mp (List.mem_reverse.mp hit) with ⟨q, -, rfl⟩
  exact absurd hc (by simp [rank])

/-- C9: on every catalog — empty categories included — and configuration
the search terminates after finitely many iterations, returning an outfit
or raising the exhaustion error; it neither loops nor reaches the
out-of-range category step. -/
theorem C9_search_terminates_with_verdict (p : OutfitPolicy)
    (lists : PieceType → List Piece) :
    get_valid_outfit p lists = some SearchResult.exhausted ∨
      ∃ a : Assignment, get_valid_outfit p lists = some (SearchResult.found a) := by
  have h1 : get_valid_outfit p lists ≠ none :=
    search_go_total p lists (search_fuel lists) (init_stack lists) Assignment.empty
      (Nat.lt_succ_self _)
  have h2 : get_valid_outfit p lists ≠ some SearchResult.crashed :=
    search_go_no_crash p lists (search_fuel lists) (init_stack lists) Assignment.empty
      (stackOK_init lists) (outfitOK_init lists)
  cases hr : get_valid_outfit p lists with
  | none => exact absurd hr h1
  | some r =>
    cases r with
    | found a => exact Or.inr ⟨a, rfl⟩
    | exhausted => exact Or.inl rfl
    | crashed => exact absurd hr h2

/-- C7: the verdict of `is_valid` and the cache it leaves behind depend only
on its four arguments and the policy configuration, never on the cache left
by an earlier call: the cache is rebuilt from scratch on every call. -/
theorem C7_is_valid_ignores_previous_cache (p : OutfitPolicy) (cache1 cache2 : Assignment)
    (top bottom jacket shoe : Option Piece) :
    is_valid_s p cache1 top bottom jacket shoe = is_valid_s p cache2 top bottom jacket shoe :=
  rfl

end AutoOutfit
